import Mathlib

/-!
Verification development for the cache-invalidation client library
(the "Ticl", the client-side protocol engine).

The repository source pool contains the unit tests of the v1 client
(invalidation-client-impl_test.cc) together with the v2 protocol-handler
declarations; the v1 client implementation itself (invalidation-client-impl,
network manager, registration update manager, throttle, session manager) is
not part of the pool.  The executable model below is therefore modelled from
the specification (client lifecycle state machine, registration manager,
deferred invalidation acks, polling and heartbeat shaping, two-window
throttler), with every observable behaviour pinned to what the unit tests
in the pool assert.  Time is in milliseconds, tokens are strings, and the
whole state is a single record transformed by pure functions.
-/

namespace InvalClient

/-- An object identifier: a source number and a name. -/
structure ObjectId where
  source : Nat
  name : String
deriving DecidableEq

/-- An invalidation: an object identifier together with a version. -/
structure Invalidation where
  object_id : ObjectId
  version : Int
deriving DecidableEq

/-- Registration operation type. -/
inductive RegOpType
  | REGISTER
  | UNREGISTER
deriving DecidableEq

/-- A registration update as it appears on the wire. -/
structure RegistrationUpdate where
  object_id : ObjectId
  sequence_number : Nat
  type : RegOpType
deriving DecidableEq

/-- Status codes used by the protocol (the subset exercised by the tests). -/
inductive StatusCode
  | SUCCESS
  | INVALID_SESSION
  | UNKNOWN_CLIENT
  | OBJECT_UNKNOWN
  | TRANSIENT_FAILURE
deriving DecidableEq

/-- Result of one registration operation, as reported by the server. -/
structure RegistrationUpdateResult where
  operation : RegistrationUpdate
  status : StatusCode
deriving DecidableEq

/-- Actions a client-to-server message can carry. -/
inductive CSAction
  | ASSIGN_CLIENT_ID
  | UPDATE_SESSION
  | POLL_INVALIDATIONS
  | OBJECT_CONTROL
deriving DecidableEq

/-- A client-to-server message (the fields the tests inspect). -/
structure ClientToServerMessage where
  action : Option CSAction
  session_token : Option String
  nonce : Option Nat
  client_type : Option Nat
  app_client_id : Option String
  client_id : Option String
  register_operations : List RegistrationUpdate
  acked_invalidations : List Invalidation
deriving DecidableEq

/-- Message types of server-to-client messages. -/
inductive SCMessageType
  | ASSIGN_CLIENT_ID
  | UPDATE_SESSION
  | INVALIDATE_SESSION
  | INVALIDATE_CLIENT_ID
  | OBJECT_CONTROL
deriving DecidableEq

/-- A server-to-client message. -/
structure ServerToClientMessage where
  message_type : SCMessageType
  status : StatusCode
  client_id : Option String := none
  session_token : Option String := none
  nonce : Option Nat := none
  client_type : Option Nat := none
  app_client_id : Option String := none
  next_poll_interval_ms : Option Nat := none
  next_heartbeat_interval_ms : Option Nat := none
  invalidations : List Invalidation := []
  registration_results : List RegistrationUpdateResult := []
deriving DecidableEq

/-- A callback handed to the application listener.  The source hands the
listener "permanent" (repeatable) callbacks; the flag records that. -/
structure Closure where
  repeatable : Bool
deriving DecidableEq

/-- Whether a callback may be invoked repeatedly (the permanent-callback
property the test listener checks on every upcall). -/
def IsCallbackRepeatable (c : Closure) : Bool := c.repeatable

/-- The callback the engine hands to every listener upcall. -/
def freshClosure : Closure := { repeatable := true }

/-- Events delivered to the application listener, in order. -/
inductive ListenerEvent
  | invalidate (inv : Invalidation) (handleId : Nat) (cb : Closure)
  | invalidateAll (cb : Closure)
  | allRegistrationsLost (cb : Closure)
  | registrationLost (oid : ObjectId) (cb : Closure)
deriving DecidableEq

/-- The callback carried by a listener event. -/
def eventClosure : ListenerEvent → Closure
  | .invalidate _ _ c => c
  | .invalidateAll c => c
  | .allRegistrationsLost c => c
  | .registrationLost _ c => c

/-- One registration entry held by the registration manager. -/
structure RegEntry where
  object_id : ObjectId
  op_type : RegOpType
  seqno : Nat
  confirmed : Bool
  lastSent : Option Nat
deriving DecidableEq

/-- The client lifecycle states. -/
inductive ClientState
  | NO_CLIENT
  | TOKEN_VALID
  | NO_SESSION
deriving DecidableEq

/-- Throttler fine window: at most one outbound-ready signal per second. -/
def fineThrottleWindowMs : Nat := 1000

/-- Throttler coarse window length. -/
def coarseThrottleWindowMs : Nat := 60000

/-- Throttler coarse limit: at most six signals per coarse window. -/
def coarseThrottleCount : Nat := 6

/-- Default registration retry timeout (one minute). -/
def defaultRegistrationTimeoutMs : Nat := 60000

/-- Modelled from the spec: default heartbeat interval (twenty minutes);
the concrete default of the missing v1 implementation is not in the pool. -/
def defaultHeartbeatIntervalMs : Nat := 1200000

/-- Modelled from the spec: default polling interval.  The spec requires a
default of at least one minute; the tests require it to exceed the longest
interval they wait through without expecting a poll, so ten minutes. -/
def defaultPollIntervalMs : Nat := 600000

/-- The client type code used by the tests. -/
def CHROME_SYNC : Nat := 1

/-- The whole state of the modelled client engine. -/
structure Ticl where
  now : Nat
  state : ClientState
  clientType : Nat
  appClientId : String
  nonce : Nat
  nonceCounter : Nat
  uniquifier : String
  sessionToken : String
  everHadSession : Bool
  regs : List RegEntry
  seqCounter : Nat
  regResults : List RegistrationUpdateResult
  pendingAcks : List (Nat × Invalidation)
  handleCounter : Nat
  invokedHandles : List Nat
  ackedInvalidations : List Invalidation
  listenerLog : List ListenerEvent
  lastPoll : Nat
  pollDelay : Nat
  pollNext : Nat
  lastSend : Nat
  hbDelay : Nat
  hbNext : Nat
  hasOutboundData : Bool
  pings : List Nat
  deferredUntil : Option Nat
  ready : Bool
  sentMessages : List ClientToServerMessage
deriving DecidableEq

/-- Modelled from the spec: the two-window throttler admission check.  A
signal is allowed at time t when the newest recorded signal is at least the
fine window old and the sixth-newest is at least the coarse window old. -/
def throttleAllowed (t : Nat) (l : List Nat) : Bool :=
  decide (l.length < 1 ∨ l.getD 0 0 + fineThrottleWindowMs ≤ t) &&
  decide (l.length < coarseThrottleCount ∨
          l.getD (coarseThrottleCount - 1) 0 + coarseThrottleWindowMs ≤ t)

/-- Modelled from the spec: the earliest future time at which both throttle
windows allow a signal. -/
def throttleEarliest (t : Nat) (l : List Nat) : Nat :=
  max t (max
    (if l.length < 1 then 0 else l.getD 0 0 + fineThrottleWindowMs)
    (if l.length < coarseThrottleCount then 0
     else l.getD (coarseThrottleCount - 1) 0 + coarseThrottleWindowMs))

/-- Record an outbound-ready signal now: the network listener is pinged. -/
def doPing (s : Ticl) : Ticl :=
  { s with pings := s.now :: s.pings, ready := true, deferredUntil := none }

/-- Modelled from the spec: ask the throttler to signal the transport.
If a deferred signal is pending the request collapses into it; if both
windows allow, the signal fires now; otherwise one deferred signal is
enqueued for the earliest admissible time. -/
def fireThrottle (s : Ticl) : Ticl :=
  match s.deferredUntil with
  | some _ => s
  | none =>
    if throttleAllowed s.now s.pings then doPing s
    else { s with deferredUntil := some (throttleEarliest s.now s.pings) }

/-- Whether a poll is due: only in TOKEN_VALID, once the poll interval has
elapsed since the previous poll. -/
def pollDue (s : Ticl) : Bool :=
  (s.state == ClientState.TOKEN_VALID) && decide (s.lastPoll + s.pollDelay ≤ s.now)

/-- Whether a heartbeat is due: the heartbeat interval has elapsed since the
last outbound send. -/
def hbDue (s : Ticl) : Bool := decide (s.lastSend + s.hbDelay ≤ s.now)

/-- Modelled from the spec: the single periodic heartbeat timer.  When the
in-flight tick has elapsed it signals the throttler if a heartbeat is due
(the dueness check reads the current interval, so a lengthening takes
effect immediately), and reschedules itself with the current interval. -/
def runHbTick (s : Ticl) : Ticl :=
  if s.hbNext ≤ s.now then
    let s1 := { s with hbNext := s.now + s.hbDelay }
    if hbDue s then fireThrottle { s1 with hasOutboundData := true } else s1
  else s

/-- Modelled from the spec: the named poll task.  When due it marks outbound
data pending (the poll action) and signals the throttler, then reschedules;
when not yet due it re-arms itself for the poll deadline. -/
def runPollTask (s : Ticl) : Ticl :=
  if s.pollNext ≤ s.now then
    if pollDue s then
      fireThrottle { s with hasOutboundData := true, pollNext := s.now + s.pollDelay }
    else { s with pollNext := max (s.now + 1) (s.lastPoll + s.pollDelay) }
  else s

/-- Modelled from the spec: the deferred throttle signal.  When its time
arrives it delivers the ping provided outbound data is still pending and
the windows admit it; with no pending data it simply clears. -/
def runDeferredTask (s : Ticl) : Ticl :=
  match s.deferredUntil with
  | none => s
  | some d =>
    if d ≤ s.now then
      if s.hasOutboundData then
        if throttleAllowed s.now s.pings then doPing s
        else { s with deferredUntil := some (throttleEarliest s.now s.pings) }
      else { s with deferredUntil := none }
    else s

/-- Run all internal tasks that are due at the current time. -/
def runReadyTasks (s : Ticl) : Ticl :=
  runDeferredTask (runPollTask (runHbTick s))

/-- Advance the virtual clock. -/
def modifyTime (d : Nat) (s : Ticl) : Ticl := { s with now := s.now + d }

/-- Reset the outbound-ready flag (the test fixture does this by hand). -/
def clearReady (s : Ticl) : Ticl := { s with ready := false }

/-- Modelled from the spec: client creation.  The engine starts in NO_CLIENT
with a fresh nonce and immediately has outbound data (the assign-client-id
request), so it signals the transport through the throttler. -/
def initTicl (clientType : Nat) (appClientId : String) (startTime : Nat) : Ticl :=
  fireThrottle {
    now := startTime
    state := ClientState.NO_CLIENT
    clientType := clientType
    appClientId := appClientId
    nonce := 0
    nonceCounter := 1
    uniquifier := ""
    sessionToken := ""
    everHadSession := false
    regs := []
    seqCounter := 1
    regResults := []
    pendingAcks := []
    handleCounter := 0
    invokedHandles := []
    ackedInvalidations := []
    listenerLog := []
    lastPoll := 0
    pollDelay := defaultPollIntervalMs
    pollNext := startTime + defaultPollIntervalMs
    lastSend := startTime
    hbDelay := defaultHeartbeatIntervalMs
    hbNext := startTime + defaultHeartbeatIntervalMs
    hasOutboundData := true
    pings := []
    deferredUntil := none
    ready := false
    sentMessages := [] }

/-- Whether a registration entry is due to be (re)sent: unconfirmed and
either never sent or sent at least the registration timeout ago. -/
def regDue (now : Nat) (e : RegEntry) : Bool :=
  !e.confirmed &&
    (match e.lastSent with
     | none => true
     | some t => decide (t + defaultRegistrationTimeoutMs ≤ now))

/-- The registration entries attached to the next outbound message. -/
def dueRegOps (s : Ticl) : List RegEntry := s.regs.filter (regDue s.now)

/-- Wire form of a registration entry. -/
def regEntryToUpdate (e : RegEntry) : RegistrationUpdate :=
  { object_id := e.object_id, sequence_number := e.seqno, type := e.op_type }

/-- Modelled from the spec: compose and take the one buffered outbound
message.  In NO_CLIENT it is the assign-client-id request (external id and
nonce, no token, no registrations, no acks); in NO_SESSION it is the
update-session request carrying the uniquifier; in TOKEN_VALID it carries
the session token, the due registration operations, all pending
invalidation acks (cleared on take), and a poll action when the poll
interval has elapsed.  Taking a message counts as a send: it resets the
heartbeat timer. -/
def takeOutboundMessage (s : Ticl) : ClientToServerMessage × Ticl :=
  match s.state with
  | ClientState.NO_CLIENT =>
    let m : ClientToServerMessage :=
      { action := some CSAction.ASSIGN_CLIENT_ID
        session_token := none
        nonce := some s.nonce
        client_type := some s.clientType
        app_client_id := some s.appClientId
        client_id := none
        register_operations := []
        acked_invalidations := [] }
    (m, { s with hasOutboundData := false, lastSend := s.now,
                 hbNext := s.now + s.hbDelay,
                 sentMessages := m :: s.sentMessages })
  | ClientState.NO_SESSION =>
    let m : ClientToServerMessage :=
      { action := some CSAction.UPDATE_SESSION
        session_token := none
        nonce := none
        client_type := none
        app_client_id := none
        client_id := some s.uniquifier
        register_operations := []
        acked_invalidations := [] }
    (m, { s with hasOutboundData := false, lastSend := s.now,
                 hbNext := s.now + s.hbDelay,
                 sentMessages := m :: s.sentMessages })
  | ClientState.TOKEN_VALID =>
    let due := dueRegOps s
    let doPoll : Bool := decide (s.lastPoll + s.pollDelay ≤ s.now)
    let m : ClientToServerMessage :=
      { action := if doPoll then some CSAction.POLL_INVALIDATIONS else none
        session_token := some s.sessionToken
        nonce := none
        client_type := none
        app_client_id := none
        client_id := none
        register_operations := due.map regEntryToUpdate
        acked_invalidations := s.ackedInvalidations }
    (m, { s with regs := s.regs.map (fun e =>
                   if regDue s.now e then { e with lastSent := some s.now } else e),
                 ackedInvalidations := [],
                 lastPoll := if doPoll then s.now else s.lastPoll,
                 hasOutboundData := false, lastSend := s.now,
                 hbNext := s.now + s.hbDelay,
                 sentMessages := m :: s.sentMessages })

/-- Application call Register/Unregister: records the desired op with a fresh
sequence number (a later op for the same object overrides an earlier one)
and signals that outbound data is ready. -/
def registerOp (isReg : Bool) (oid : ObjectId) (s : Ticl) : Ticl :=
  let e : RegEntry :=
    { object_id := oid
      op_type := if isReg then RegOpType.REGISTER else RegOpType.UNREGISTER
      seqno := s.seqCounter
      confirmed := false
      lastSent := none }
  fireThrottle { s with
    regs := (s.regs.filter (fun x => x.object_id != oid)) ++ [e]
    seqCounter := s.seqCounter + 1
    hasOutboundData := true }

/-- Application invokes the ack handle of a delivered invalidation: the
invalidation moves to the pending-ack set exactly once and the engine
signals outbound data. -/
def invokeAckHandle (h : Nat) (s : Ticl) : Ticl :=
  match s.pendingAcks.find? (fun p => p.1 == h) with
  | none => s
  | some p =>
    fireThrottle { s with
      pendingAcks := s.pendingAcks.filter (fun q => q.1 != h)
      invokedHandles := h :: s.invokedHandles
      ackedInvalidations :=
        if p.2 ∈ s.ackedInvalidations then s.ackedInvalidations
        else s.ackedInvalidations ++ [p.2]
      hasOutboundData := true }

/-- Process one registration result from the server: a SUCCESS confirms the
matching unconfirmed entry and fires the app callback once; a permanent
failure fires the callback with the failure and removes the entry; a
transient failure leaves the entry pending. -/
def processRegResult (r : RegistrationUpdateResult) (s : Ticl) : Ticl :=
  match s.regs.find? (fun e =>
      e.object_id == r.operation.object_id &&
      e.seqno == r.operation.sequence_number &&
      e.op_type == r.operation.type) with
  | none => s
  | some e =>
    if r.status = StatusCode.SUCCESS then
      if e.confirmed then s
      else { s with
        regs := s.regs.map (fun x =>
          if x.seqno == e.seqno then { x with confirmed := true } else x)
        regResults := s.regResults ++ [r] }
    else if r.status = StatusCode.TRANSIENT_FAILURE then s
    else
      { s with
        regs := s.regs.filter (fun x => x.seqno != e.seqno)
        regResults := s.regResults ++ [r] }

/-- Whether the client holds a confirmed registration for an object. -/
def isRegisteredFor (oid : ObjectId) (s : Ticl) : Bool :=
  s.regs.any (fun e =>
    e.object_id == oid && e.op_type == RegOpType.REGISTER && e.confirmed)

/-- Deliver one inbound invalidation: if the object is in the confirmed set
the listener receives it with a fresh ack handle and the invalidation is
held pending; otherwise it is dropped. -/
def deliverInvalidation (inv : Invalidation) (s : Ticl) : Ticl :=
  if isRegisteredFor inv.object_id s then
    { s with
      pendingAcks := (s.handleCounter, inv) :: s.pendingAcks
      listenerLog :=
        s.listenerLog ++ [ListenerEvent.invalidate inv s.handleCounter freshClosure]
      handleCounter := s.handleCounter + 1 }
  else s

/-- Apply server-advertised poll and heartbeat intervals (last value wins).
A new poll interval re-arms the poll task at the new deadline, earliest
wins; a new heartbeat interval only updates the interval, leaving the
in-flight heartbeat tick alone. -/
def applyIntervals (m : ServerToClientMessage) (s : Ticl) : Ticl :=
  let s1 :=
    match m.next_poll_interval_ms with
    | none => s
    | some p =>
      { s with pollDelay := p,
               pollNext := min s.pollNext (max s.now (s.lastPoll + p)) }
  match m.next_heartbeat_interval_ms with
  | none => s1
  | some h => { s1 with hbDelay := h }

/-- After handling an inbound message, signal the transport when new
outbound work became due. -/
def afterInboundFire (s : Ticl) : Ticl :=
  if pollDue s || hbDue s then fireThrottle { s with hasOutboundData := true }
  else s

/-- Modelled from the spec: the inbound dispatcher of the missing client
implementation.  An assign-client-id response is accepted only in NO_CLIENT
with matching nonce and echoed external id; an update-session response only
in NO_SESSION with matching uniquifier; invalidate-session only with the
current token; invalidate-client-id only with the current uniquifier;
object-control only with the current token.  Everything else is dropped
with no state change. -/
def handleInbound (m : ServerToClientMessage) (s : Ticl) : Ticl :=
  match m.message_type with
  | SCMessageType.ASSIGN_CLIENT_ID =>
    if s.state == ClientState.NO_CLIENT && m.nonce == some s.nonce &&
       m.client_type == some s.clientType &&
       m.app_client_id == some s.appClientId &&
       m.status == StatusCode.SUCCESS then
      match m.client_id, m.session_token with
      | some uniq, some tok =>
        let s1 := { s with state := ClientState.TOKEN_VALID,
                           uniquifier := uniq, sessionToken := tok }
        let s2 :=
          if s.everHadSession then
            { s1 with regs := [],
                      listenerLog := s1.listenerLog ++
                        [ListenerEvent.allRegistrationsLost freshClosure],
                      everHadSession := true }
          else { s1 with everHadSession := true }
        afterInboundFire s2
      | _, _ => s
    else s
  | SCMessageType.UPDATE_SESSION =>
    if s.state == ClientState.NO_SESSION && m.client_id == some s.uniquifier &&
       m.status == StatusCode.SUCCESS then
      match m.session_token with
      | some tok =>
        afterInboundFire { s with
          state := ClientState.TOKEN_VALID
          sessionToken := tok
          regs := s.regs.map (fun e => { e with confirmed := false, lastSent := none })
          listenerLog := s.listenerLog ++
            [ListenerEvent.allRegistrationsLost freshClosure] }
      | none => s
    else s
  | SCMessageType.INVALIDATE_SESSION =>
    if s.state == ClientState.TOKEN_VALID &&
       m.session_token == some s.sessionToken then
      fireThrottle { s with state := ClientState.NO_SESSION, hasOutboundData := true }
    else s
  | SCMessageType.INVALIDATE_CLIENT_ID =>
    if s.state != ClientState.NO_CLIENT && m.client_id == some s.uniquifier then
      fireThrottle { s with
        state := ClientState.NO_CLIENT
        uniquifier := ""
        sessionToken := ""
        nonce := s.nonceCounter
        nonceCounter := s.nonceCounter + 1
        hasOutboundData := true }
    else s
  | SCMessageType.OBJECT_CONTROL =>
    if s.state == ClientState.TOKEN_VALID &&
       m.session_token == some s.sessionToken then
      let s1 := applyIntervals m s
      let s2 := m.registration_results.foldl (fun acc r => processRegResult r acc) s1
      let s3 := m.invalidations.foldl (fun acc i => deliverInvalidation i acc) s2
      afterInboundFire s3
    else s

/-- One externally driven step of the engine, as the tests drive it. -/
inductive Step
  | advance (d : Nat)
  | advanceOnly (d : Nat)
  | run
  | inbound (m : ServerToClientMessage)
  | take
  | register (oid : ObjectId)
  | unregister (oid : ObjectId)
  | invokeAck (h : Nat)
  | clear

/-- Apply one step. -/
def applyStep (s : Ticl) : Step → Ticl
  | Step.advance d => runReadyTasks (modifyTime d s)
  | Step.advanceOnly d => modifyTime d s
  | Step.run => runReadyTasks s
  | Step.inbound m => handleInbound m s
  | Step.take => (takeOutboundMessage s).2
  | Step.register oid => registerOp true oid s
  | Step.unregister oid => registerOp false oid s
  | Step.invokeAck h => invokeAckHandle h s
  | Step.clear => clearReady s

/-- Apply a list of steps in order. -/
def runSteps (s : Ticl) : List Step → Ticl
  | [] => s
  | st :: rest => runSteps (applyStep s st) rest

/-!
Concrete scenarios mirroring the unit tests in the source pool.  The start
time, external id, object ids, tokens and versions are those of the test
fixture (SetUp advances the clock by one million seconds before start).
-/

/-- The fixture start time: one million seconds, in milliseconds. -/
def t0 : Nat := 1000000000

/-- Object id BOOKMARKS, as in the test fixture. -/
def oid1 : ObjectId := { source := CHROME_SYNC, name := "BOOKMARKS" }

/-- Object id HISTORY, as in the test fixture. -/
def oid2 : ObjectId := { source := CHROME_SYNC, name := "HISTORY" }

/-- The freshly created client of the test fixture. -/
def scenarioInit : Ticl := initTicl CHROME_SYNC "app_name" t0

/-- The assign-client-id response of the initialization scenario: matching
nonce and echoed external id, uniquifier and session token, SUCCESS. -/
def assignResponse : ServerToClientMessage :=
  { message_type := SCMessageType.ASSIGN_CLIENT_ID
    status := StatusCode.SUCCESS
    client_id := some "uniquifier"
    session_token := some "opaque_data"
    nonce := some 0
    client_type := some CHROME_SYNC
    app_client_id := some "app_name" }

/-- Steps of the initialization scenario: run tasks, take the assign
request, clear the ready flag, inject the matching response, run tasks,
take the next message. -/
def stepsInit : List Step :=
  [Step.run, Step.take, Step.clear, Step.inbound assignResponse, Step.run, Step.take]

/-- Client state after the initialization scenario. -/
def afterInitS : Ticl := runSteps scenarioInit stepsInit

/-- Wire form of the first register operation (BOOKMARKS, sequence 1). -/
def regUpd1 : RegistrationUpdate :=
  { object_id := oid1, sequence_number := 1, type := RegOpType.REGISTER }

/-- Wire form of the second register operation (HISTORY, sequence 2). -/
def regUpd2 : RegistrationUpdate :=
  { object_id := oid2, sequence_number := 2, type := RegOpType.REGISTER }

/-- Server response confirming both register operations with SUCCESS. -/
def regResponseBoth : ServerToClientMessage :=
  { message_type := SCMessageType.OBJECT_CONTROL
    status := StatusCode.SUCCESS
    session_token := some "opaque_data"
    registration_results :=
      [{ operation := regUpd1, status := StatusCode.SUCCESS },
       { operation := regUpd2, status := StatusCode.SUCCESS }] }

/-- Steps of the registration scenario: register both objects, take the
message after the fine throttle interval, confirm both, and take once more
after the registration timeout. -/
def stepsReg : List Step :=
  stepsInit ++
  [Step.clear, Step.register oid1, Step.register oid2,
   Step.advance 1000, Step.take,
   Step.inbound regResponseBoth, Step.run,
   Step.advance 60000, Step.take]

/-- Client state after the registration scenario (both ops confirmed). -/
def afterRegS : Ticl := runSteps scenarioInit stepsReg

/-- The assign-client-id request the fresh client sends. -/
def assignRequestMsg : ClientToServerMessage :=
  { action := some CSAction.ASSIGN_CLIENT_ID
    session_token := none
    nonce := some 0
    client_type := some CHROME_SYNC
    app_client_id := some "app_name"
    client_id := none
    register_operations := []
    acked_invalidations := [] }

/-- The poll message the client sends once it holds the session. -/
def pollRequestMsg : ClientToServerMessage :=
  { action := some CSAction.POLL_INVALIDATIONS
    session_token := some "opaque_data"
    nonce := none
    client_type := none
    app_client_id := none
    client_id := none
    register_operations := []
    acked_invalidations := [] }

/-- Server acks only the HISTORY registration (sequence 2). -/
def ackOp2Msg : ServerToClientMessage :=
  { message_type := SCMessageType.OBJECT_CONTROL
    status := StatusCode.SUCCESS
    session_token := some "opaque_data"
    registration_results := [{ operation := regUpd2, status := StatusCode.SUCCESS }] }

/-- Server acks only the BOOKMARKS registration (sequence 1). -/
def ackOp1Msg : ServerToClientMessage :=
  { message_type := SCMessageType.OBJECT_CONTROL
    status := StatusCode.SUCCESS
    session_token := some "opaque_data"
    registration_results := [{ operation := regUpd1, status := StatusCode.SUCCESS }] }

/-- State of the retry scenario after registering both objects, taking the
first registration message, and waiting out the registration timeout with
no server response. -/
def retryS1 : Ticl :=
  runSteps scenarioInit (stepsInit ++
    [Step.clear, Step.register oid1, Step.register oid2,
     Step.advance 1000, Step.take, Step.advance 60000])

/-- Retry scenario after acking HISTORY and waiting out the timeout again. -/
def retryS2 : Ticl :=
  runSteps retryS1 [Step.take, Step.inbound ackOp2Msg, Step.run, Step.advance 60000]

/-- Retry scenario after acking BOOKMARKS too and waiting once more. -/
def retryS3 : Ticl :=
  runSteps retryS2 [Step.take, Step.inbound ackOp1Msg, Step.run, Step.advance 60000]

/-- The invalidate-session message carrying the current session token. -/
def invalidateSessionMsg : ServerToClientMessage :=
  { message_type := SCMessageType.INVALIDATE_SESSION
    status := StatusCode.INVALID_SESSION
    session_token := some "opaque_data" }

/-- Session-switch scenario: the matching invalidate-session arrives after
the registration scenario, and the client gets one fine-throttle interval. -/
def sessionS1 : Ticl :=
  runSteps afterRegS [Step.clear, Step.inbound invalidateSessionMsg, Step.advance 1000]

/-- The update-session success response carrying a new session token. -/
def updateSessionResponse : ServerToClientMessage :=
  { message_type := SCMessageType.UPDATE_SESSION
    status := StatusCode.SUCCESS
    client_id := some "uniquifier"
    session_token := some "NEW_OPAQUE_DATA" }

/-- Session-switch scenario after the update-session response. -/
def sessionS2 : Ticl :=
  runSteps sessionS1 [Step.take, Step.inbound updateSessionResponse, Step.run]

/-- Counts the AllRegistrationsLost upcalls in a listener log. -/
def countAllRegLost (l : List ListenerEvent) : Nat :=
  (l.filter (fun e =>
    match e with
    | ListenerEvent.allRegistrationsLost _ => true
    | _ => false)).length

/-- An invalidate-session message with a token that does not match. -/
def bogusSessionMsg : ServerToClientMessage :=
  { message_type := SCMessageType.INVALIDATE_SESSION
    status := StatusCode.INVALID_SESSION
    session_token := some "bogus-session-token" }

/-- An invalidate-client-id message with a client id that does not match. -/
def bogusClientIdMsg : ServerToClientMessage :=
  { message_type := SCMessageType.INVALIDATE_CLIENT_ID
    status := StatusCode.UNKNOWN_CLIENT
    session_token := some "opaque_data"
    client_id := some "bogus-client-id" }

/-- The fresh client right after taking its assign request. -/
def noClientS : Ticl := runSteps scenarioInit [Step.run, Step.take, Step.clear]

/-- An assign response whose echoed application client id is wrong. -/
def wrongAppIdResponse : ServerToClientMessage :=
  { message_type := SCMessageType.ASSIGN_CLIENT_ID
    status := StatusCode.SUCCESS
    client_id := some "uniquifier"
    session_token := some "opaque_data"
    nonce := some 0
    client_type := some CHROME_SYNC
    app_client_id := some "wrong-app-client-id" }

/-- An assign response whose nonce does not match the outstanding one. -/
def wrongNonceResponse : ServerToClientMessage :=
  { message_type := SCMessageType.ASSIGN_CLIENT_ID
    status := StatusCode.SUCCESS
    client_id := some "uniquifier"
    session_token := some "opaque_data"
    nonce := some 999
    client_type := some CHROME_SYNC
    app_client_id := some "app_name" }

/-- Server response failing BOOKMARKS with OBJECT_UNKNOWN (a permanent
failure) and confirming HISTORY with SUCCESS. -/
def failResponse : ServerToClientMessage :=
  { message_type := SCMessageType.OBJECT_CONTROL
    status := StatusCode.SUCCESS
    session_token := some "opaque_data"
    registration_results :=
      [{ operation := regUpd1, status := StatusCode.OBJECT_UNKNOWN },
       { operation := regUpd2, status := StatusCode.SUCCESS }] }

/-- Registration-failure scenario: register both, take, deliver the mixed
response, then wait out the registration timeout. -/
def failS : Ticl :=
  runSteps scenarioInit (stepsInit ++
    [Step.clear, Step.register oid1, Step.register oid2,
     Step.advance 1000, Step.take,
     Step.inbound failResponse, Step.run, Step.advance 60000])

/-- The invalidation (BOOKMARKS, version 5) used by the ack scenario. -/
def inv1 : Invalidation := { object_id := oid1, version := 5 }

/-- Server message delivering the invalidation for BOOKMARKS. -/
def invalidationMsg : ServerToClientMessage :=
  { message_type := SCMessageType.OBJECT_CONTROL
    status := StatusCode.SUCCESS
    session_token := some "opaque_data"
    invalidations := [inv1] }

/-- Deferred-ack scenario state after the invalidation is delivered. -/
def ackS1 : Ticl := runSteps afterRegS [Step.inbound invalidationMsg, Step.run]

/-- Deferred-ack scenario after taking one message (no ack yet), invoking
the delivered ack handle, and advancing one fine-throttle interval. -/
def ackS2 : Ticl :=
  runSteps ackS1 [Step.take, Step.clear, Step.invokeAck 0, Step.advance 1000]

/-- Server message advertising a ten-second poll interval. -/
def pollInterval10s : ServerToClientMessage :=
  { message_type := SCMessageType.OBJECT_CONTROL
    status := StatusCode.SUCCESS
    session_token := some "opaque_data"
    next_poll_interval_ms := some 10000 }

/-- Server message advertising a hundred-second poll interval. -/
def pollInterval100s : ServerToClientMessage :=
  { message_type := SCMessageType.OBJECT_CONTROL
    status := StatusCode.SUCCESS
    session_token := some "opaque_data"
    next_poll_interval_ms := some 100000 }

/-- Polling scenario: advertise ten seconds, advance to one millisecond
before the deadline. -/
def pollS1 : Ticl :=
  runSteps afterInitS [Step.inbound pollInterval10s, Step.run, Step.advanceOnly 9999]

/-- Polling scenario: the last millisecond elapses. -/
def pollS2 : Ticl := runSteps pollS1 [Step.take, Step.advance 1]

/-- Polling scenario: advertise a hundred seconds, advance to one
millisecond before the new deadline. -/
def pollS3 : Ticl :=
  runSteps pollS2 [Step.take, Step.inbound pollInterval100s, Step.run,
                   Step.advanceOnly 99999]

/-- Polling scenario: the last millisecond of the longer interval. -/
def pollS4 : Ticl := runSteps pollS3 [Step.take, Step.advance 1]

/-- Server message advertising a three-hundred-second heartbeat interval. -/
def hbInterval300s : ServerToClientMessage :=
  { message_type := SCMessageType.OBJECT_CONTROL
    status := StatusCode.SUCCESS
    session_token := some "opaque_data"
    next_heartbeat_interval_ms := some 300000 }

/-- Server message advertising a ten-second heartbeat interval. -/
def hbInterval10s : ServerToClientMessage :=
  { message_type := SCMessageType.OBJECT_CONTROL
    status := StatusCode.SUCCESS
    session_token := some "opaque_data"
    next_heartbeat_interval_ms := some 10000 }

/-- Heartbeat scenario: lengthen the interval to 300 s, take a message
(re-arming the heartbeat timer), advance to one millisecond short. -/
def hbS1 : Ticl :=
  runSteps afterInitS
    [Step.inbound hbInterval300s, Step.run, Step.take, Step.clear,
     Step.advance 299999]

/-- Heartbeat scenario: one fine-throttle interval further. -/
def hbS2 : Ticl := runSteps hbS1 [Step.advance 1000]

/-- Heartbeat scenario: shorten the interval to 10 s, take, advance 80 s. -/
def hbS3 : Ticl :=
  runSteps hbS2 [Step.inbound hbInterval10s, Step.run, Step.take, Step.clear,
                 Step.advance 80000]

/-- Heartbeat scenario: take, advance to one millisecond short of the
shorter interval. -/
def hbS4 : Ticl := runSteps hbS3 [Step.take, Step.clear, Step.advance 9999]

/-- Heartbeat scenario: one fine-throttle interval further. -/
def hbS5 : Ticl := runSteps hbS4 [Step.advance 1000]

/-!
Throttle gap invariant and the five-minute throttling simulation.
-/

/-- The two throttle window bounds as gaps on the recorded signal times
(newest first): successive signals at least the fine window apart, and any
seven consecutive signals spanning more than the coarse window (hence at
most six signals inside any coarse window). -/
def GapsOK (l : List Nat) : Prop :=
  ∀ i : Nat,
    (i + 1 < l.length → l.getD (i + 1) 0 + fineThrottleWindowMs ≤ l.getD i 0) ∧
    (i + coarseThrottleCount < l.length →
      l.getD (i + coarseThrottleCount) 0 + coarseThrottleWindowMs ≤ l.getD i 0)

/-- Server message of the throttling scenario: both intervals one
millisecond. -/
def throttleIntervalMsg : ServerToClientMessage :=
  { message_type := SCMessageType.OBJECT_CONTROL
    status := StatusCode.SUCCESS
    session_token := some "opaque_data"
    next_heartbeat_interval_ms := some 1
    next_poll_interval_ms := some 1 }

/-- Start state of the throttling simulation. -/
def throttleStart : Ticl := handleInbound throttleIntervalMsg afterInitS

/-- One iteration of the throttling test loop: advance ten milliseconds,
run tasks, and when the outbound-ready flag is set take the message, reset
the flag and count one signal. -/
def simStepFn (p : Ticl × Nat) : Ticl × Nat :=
  let s := runReadyTasks (modifyTime 10 p.1)
  if s.ready then ((takeOutboundMessage (clearReady s)).2, p.2 + 1) else (s, p.2)

/-- Iterate the throttling loop. -/
def simIter : Nat → (Ticl × Nat) → (Ticl × Nat)
  | 0, p => p
  | n + 1, p => simIter n (simStepFn p)

/-- The next deferred signal time from a signal history (newest first). -/
def nextPing (l : List Nat) : Nat := throttleEarliest (l.headD 0 + 10) l

/-- Signal times of the throttling simulation, newest first, after the
k-th counted signal; the creation-time signal is index zero. -/
def pingsAfter : Nat → List Nat
  | 0 => [t0]
  | k + 1 => nextPing (pingsAfter k) :: pingsAfter k

/-- Time of the k-th counted signal of the throttling simulation. -/
def pingAt (k : Nat) : Nat := (pingsAfter k).headD 0

/-- The sent-message log the client holds when the simulation starts. -/
def initSent : List ClientToServerMessage := throttleStart.sentMessages

/-- Simulation state right after the k-th counted signal at time p with
earlier signals l: the loop has just taken the poll message. -/
def postTakeState (p : Nat) (l : List Nat) (k : Nat) : Ticl × Nat :=
  ({ now := p
     state := ClientState.TOKEN_VALID
     clientType := CHROME_SYNC
     appClientId := "app_name"
     nonce := 0
     nonceCounter := 1
     uniquifier := "uniquifier"
     sessionToken := "opaque_data"
     everHadSession := true
     regs := []
     seqCounter := 1
     regResults := []
     pendingAcks := []
     handleCounter := 0
     invokedHandles := []
     ackedInvalidations := []
     listenerLog := []
     lastPoll := p
     pollDelay := 1
     pollNext := p + 1
     lastSend := p
     hbDelay := 1
     hbNext := p + 1
     hasOutboundData := false
     pings := p :: l
     deferredUntil := none
     ready := false
     sentMessages := List.replicate k pollRequestMsg ++ initSent }, k)

/-- Simulation state between signals: the deferred signal is pending at d,
the clock reads T, and the heartbeat and poll tasks chase the clock. -/
def quietState (p : Nat) (l : List Nat) (k : Nat) (d T : Nat) : Ticl × Nat :=
  ({ now := T
     state := ClientState.TOKEN_VALID
     clientType := CHROME_SYNC
     appClientId := "app_name"
     nonce := 0
     nonceCounter := 1
     uniquifier := "uniquifier"
     sessionToken := "opaque_data"
     everHadSession := true
     regs := []
     seqCounter := 1
     regResults := []
     pendingAcks := []
     handleCounter := 0
     invokedHandles := []
     ackedInvalidations := []
     listenerLog := []
     lastPoll := p
     pollDelay := 1
     pollNext := T + 1
     lastSend := p
     hbDelay := 1
     hbNext := T + 1
     hasOutboundData := true
     pings := p :: l
     deferredUntil := some d
     ready := false
     sentMessages := List.replicate k pollRequestMsg ++ initSent }, k)

/-- Simulation stage k: the state right after the k-th counted signal. -/
def stageState (k : Nat) : Ticl × Nat :=
  postTakeState (pingAt k) (pingsAfter (k - 1)) k

/-- Loop iterations needed to reach stage k from the simulation start. -/
def cumSteps (k : Nat) : Nat := 100 + (pingAt k - (t0 + 1000)) / 10

/-- The full deferred-ack trace: registration scenario, one invalidation
delivered, a take before the handle is invoked, the handle invocation, and
the next batched take. -/
def ackTrace : List Step :=
  stepsReg ++ [Step.inbound invalidationMsg, Step.run, Step.take, Step.clear,
               Step.invokeAck 0, Step.advance 1000, Step.take]

/-- The master invariant of the engine: throttle gaps hold on the recorded
signals; every held ack handle was delivered with its invalidation; every
pending or already-sent wire ack has a matching delivered-and-invoked
handle; and every listener callback is the permanent (repeatable) one. -/
structure MasterInv (s : Ticl) : Prop where
  gaps : GapsOK s.pings
  pend : ∀ p ∈ s.pendingAcks,
    ListenerEvent.invalidate p.2 p.1 freshClosure ∈ s.listenerLog
  acked : ∀ inv ∈ s.ackedInvalidations, ∃ h,
    ListenerEvent.invalidate inv h freshClosure ∈ s.listenerLog ∧
    h ∈ s.invokedHandles
  sent : ∀ m ∈ s.sentMessages, ∀ inv ∈ m.acked_invalidations, ∃ h,
    ListenerEvent.invalidate inv h freshClosure ∈ s.listenerLog ∧
    h ∈ s.invokedHandles
  closures : ∀ ev ∈ s.listenerLog, eventClosure ev = freshClosure

/-!
Theorems.  Each claim of the specification review is settled by exactly one
named theorem below; shared helper lemmas precede them.
-/

/-- Helper: invariant preservation (gapsOK_nil). -/
theorem gapsOK_nil : GapsOK [] := by
  intro i
  constructor <;> intro h <;> simp at h

/-- Helper: invariant preservation (gapsOK_push). -/
theorem gapsOK_push (t : Nat) (l : List Nat) (hg : GapsOK l)
    (ha : throttleAllowed t l = true) : GapsOK (t :: l) := by
  unfold throttleAllowed at ha
  rw [Bool.and_eq_true, decide_eq_true_eq, decide_eq_true_eq] at ha
  intro i
  cases i with
  | zero =>
    constructor
    · intro hlen
      simp only [List.length_cons] at hlen
      have hfine := ha.1.resolve_left (by omega)
      simpa [List.getD_cons_succ, List.getD_cons_zero] using hfine
    · intro hlen
      simp only [List.length_cons, coarseThrottleCount] at hlen
      have hcoarse := ha.2.resolve_left (by simp [coarseThrottleCount]; omega)
      simpa [coarseThrottleCount, List.getD_cons_succ, List.getD_cons_zero] using hcoarse
  | succ j =>
    have hj := hg j
    constructor
    · intro hlen
      simp only [List.length_cons] at hlen
      have := hj.1 (by omega)
      simpa [List.getD_cons_succ] using this
    · intro hlen
      simp only [List.length_cons, coarseThrottleCount] at hlen
      have := hj.2 (by simp [coarseThrottleCount]; omega)
      simpa [coarseThrottleCount, List.getD_cons_succ] using this

/-- Helper: invariant preservation (masterInv_doPing). -/
theorem masterInv_doPing (s : Ticl) (h : MasterInv s)
    (ha : throttleAllowed s.now s.pings = true) : MasterInv (doPing s) :=
  ⟨gapsOK_push _ _ h.gaps ha, h.pend, h.acked, h.sent, h.closures⟩

/-- Helper: invariant preservation (masterInv_fireThrottle). -/
theorem masterInv_fireThrottle (s : Ticl) (h : MasterInv s) :
    MasterInv (fireThrottle s) := by
  unfold fireThrottle
  split
  · exact h
  · split
    · exact masterInv_doPing s h (by assumption)
    · exact ⟨h.gaps, h.pend, h.acked, h.sent, h.closures⟩

/-- Helper: invariant preservation (masterInv_runHbTick). -/
theorem masterInv_runHbTick (s : Ticl) (h : MasterInv s) : MasterInv (runHbTick s) := by
  unfold runHbTick
  split
  · split
    · exact masterInv_fireThrottle _ ⟨h.gaps, h.pend, h.acked, h.sent, h.closures⟩
    · exact ⟨h.gaps, h.pend, h.acked, h.sent, h.closures⟩
  · exact h

/-- Helper: invariant preservation (masterInv_runPollTask). -/
theorem masterInv_runPollTask (s : Ticl) (h : MasterInv s) : MasterInv (runPollTask s) := by
  unfold runPollTask
  split
  · split
    · exact masterInv_fireThrottle _ ⟨h.gaps, h.pend, h.acked, h.sent, h.closures⟩
    · exact ⟨h.gaps, h.pend, h.acked, h.sent, h.closures⟩
  · exact h

/-- Helper: invariant preservation (masterInv_runDeferredTask). -/
theorem masterInv_runDeferredTask (s : Ticl) (h : MasterInv s) :
    MasterInv (runDeferredTask s) := by
  unfold runDeferredTask
  split
  · exact h
  · split
    · split
      · split
        · exact masterInv_doPing s h (by assumption)
        · exact ⟨h.gaps, h.pend, h.acked, h.sent, h.closures⟩
      · exact ⟨h.gaps, h.pend, h.acked, h.sent, h.closures⟩
    · exact h

/-- Helper: invariant preservation (masterInv_runReadyTasks). -/
theorem masterInv_runReadyTasks (s : Ticl) (h : MasterInv s) :
    MasterInv (runReadyTasks s) :=
  masterInv_runDeferredTask _ (masterInv_runPollTask _ (masterInv_runHbTick _ h))

/-- Helper: invariant preservation (masterInv_modifyTime). -/
theorem masterInv_modifyTime (d : Nat) (s : Ticl) (h : MasterInv s) :
    MasterInv (modifyTime d s) :=
  ⟨h.gaps, h.pend, h.acked, h.sent, h.closures⟩

/-- Helper: invariant preservation (masterInv_clearReady). -/
theorem masterInv_clearReady (s : Ticl) (h : MasterInv s) : MasterInv (clearReady s) :=
  ⟨h.gaps, h.pend, h.acked, h.sent, h.closures⟩

/-- Helper: invariant preservation (masterInv_registerOp). -/
theorem masterInv_registerOp (b : Bool) (oid : ObjectId) (s : Ticl) (h : MasterInv s) :
    MasterInv (registerOp b oid s) :=
  masterInv_fireThrottle _ ⟨h.gaps, h.pend, h.acked, h.sent, h.closures⟩

/-- Helper: invariant preservation (masterInv_processRegResult). -/
theorem masterInv_processRegResult (r : RegistrationUpdateResult) (s : Ticl)
    (h : MasterInv s) : MasterInv (processRegResult r s) := by
  unfold processRegResult
  split
  · exact h
  · split
    · split
      · exact h
      · exact ⟨h.gaps, h.pend, h.acked, h.sent, h.closures⟩
    · split
      · exact h
      · exact ⟨h.gaps, h.pend, h.acked, h.sent, h.closures⟩

/-- Helper: invariant preservation (masterInv_deliverInvalidation). -/
theorem masterInv_deliverInvalidation (i : Invalidation) (s : Ticl)
    (h : MasterInv s) : MasterInv (deliverInvalidation i s) := by
  unfold deliverInvalidation
  split
  · refine ⟨h.gaps, ?_, ?_, ?_, ?_⟩
    · intro p hp
      rcases List.mem_cons.1 hp with hNew | hOld
      · subst hNew
        exact List.mem_append_right _ (by simp)
      · exact List.mem_append_left _ (h.pend p hOld)
    · intro inv hinv
      rcases h.acked inv hinv with ⟨hh, hmem, hinvk⟩
      exact ⟨hh, List.mem_append_left _ hmem, hinvk⟩
    · intro m hm inv hinv
      rcases h.sent m hm inv hinv with ⟨hh, hmem, hinvk⟩
      exact ⟨hh, List.mem_append_left _ hmem, hinvk⟩
    · intro ev hev
      rcases List.mem_append.1 hev with hOld | hNew
      · exact h.closures ev hOld
      · rw [List.mem_singleton.1 hNew]
        rfl
  · exact h

/-- Helper: invariant preservation (masterInv_invokeAckHandle). -/
theorem masterInv_invokeAckHandle (hid : Nat) (s : Ticl) (h : MasterInv s) :
    MasterInv (invokeAckHandle hid s) := by
  unfold invokeAckHandle
  split
  · exact h
  · rename_i p hfind
    have hmemP : p ∈ s.pendingAcks := List.mem_of_find?_eq_some hfind
    have hpid : p.1 = hid := by
      have := List.find?_some hfind
      simpa using this
    have hlog : ListenerEvent.invalidate p.2 p.1 freshClosure ∈ s.listenerLog :=
      h.pend p hmemP
    apply masterInv_fireThrottle
    refine ⟨h.gaps, ?_, ?_, ?_, h.closures⟩
    · intro q hq
      exact h.pend q (List.mem_of_mem_filter hq)
    · intro inv hinv
      simp only at hinv
      split at hinv
      · rcases h.acked inv hinv with ⟨hh, hmem, hinvk⟩
        exact ⟨hh, hmem, List.mem_cons_of_mem _ hinvk⟩
      · rcases List.mem_append.1 hinv with hOld | hNew
        · rcases h.acked inv hOld with ⟨hh, hmem, hinvk⟩
          exact ⟨hh, hmem, List.mem_cons_of_mem _ hinvk⟩
        · have : inv = p.2 := List.mem_singleton.1 hNew
          subst this
          exact ⟨p.1, hlog, by rw [hpid]; exact List.mem_cons_self _ _⟩
    · intro m hm inv hinv
      rcases h.sent m hm inv hinv with ⟨hh, hmem, hinvk⟩
      exact ⟨hh, hmem, List.mem_cons_of_mem _ hinvk⟩

/-- Helper: invariant preservation (masterInv_take). -/
theorem masterInv_take (s : Ticl) (h : MasterInv s) :
    MasterInv (takeOutboundMessage s).2 := by
  unfold takeOutboundMessage
  split
  · refine ⟨h.gaps, h.pend, h.acked, ?_, h.closures⟩
    intro m hm inv hinv
    rcases List.mem_cons.1 hm with hNew | hOld
    · subst hNew
      simp at hinv
    · exact h.sent m hOld inv hinv
  · refine ⟨h.gaps, h.pend, h.acked, ?_, h.closures⟩
    intro m hm inv hinv
    rcases List.mem_cons.1 hm with hNew | hOld
    · subst hNew
      simp at hinv
    · exact h.sent m hOld inv hinv
  · refine ⟨h.gaps, h.pend, ?_, ?_, h.closures⟩
    · intro inv hinv
      simp at hinv
    · intro m hm inv hinv
      rcases List.mem_cons.1 hm with hNew | hOld
      · subst hNew
        exact h.acked inv hinv
      · exact h.sent m hOld inv hinv

/-- Helper: invariant preservation (masterInv_foldRegResults). -/
theorem masterInv_foldRegResults (l : List RegistrationUpdateResult) (s : Ticl)
    (h : MasterInv s) :
    MasterInv (l.foldl (fun acc r => processRegResult r acc) s) := by
  induction l generalizing s with
  | nil => exact h
  | cons r rest ih =>
    rw [List.foldl_cons]
    exact ih _ (masterInv_processRegResult r s h)

/-- Helper: invariant preservation (masterInv_foldDeliver). -/
theorem masterInv_foldDeliver (l : List Invalidation) (s : Ticl) (h : MasterInv s) :
    MasterInv (l.foldl (fun acc i => deliverInvalidation i acc) s) := by
  induction l generalizing s with
  | nil => exact h
  | cons i rest ih =>
    rw [List.foldl_cons]
    exact ih _ (masterInv_deliverInvalidation i s h)

/-- Helper: invariant preservation (masterInv_afterInboundFire). -/
theorem masterInv_afterInboundFire (s : Ticl) (h : MasterInv s) :
    MasterInv (afterInboundFire s) := by
  unfold afterInboundFire
  split
  · exact masterInv_fireThrottle _ ⟨h.gaps, h.pend, h.acked, h.sent, h.closures⟩
  · exact h

/-- Helper: invariant preservation (masterInv_applyIntervals). -/
theorem masterInv_applyIntervals (m : ServerToClientMessage) (s : Ticl)
    (h : MasterInv s) : MasterInv (applyIntervals m s) := by
  unfold applyIntervals
  cases hp : m.next_poll_interval_ms <;> cases hh : m.next_heartbeat_interval_ms <;>
    simp only [hp, hh] <;>
    exact ⟨h.gaps, h.pend, h.acked, h.sent, h.closures⟩

/-- Helper: invariant preservation (masterInv_handleInbound). -/
theorem masterInv_handleInbound (m : ServerToClientMessage) (s : Ticl)
    (h : MasterInv s) : MasterInv (handleInbound m s) := by
  obtain ⟨mt, mstatus, mcid, mtok, mnonce, mct, mapp, mpoll, mhb, minvs, mress⟩ := m
  cases mt
  case ASSIGN_CLIENT_ID =>
    simp only [handleInbound]
    cases mcid <;> cases mtok <;> split <;> try exact h
    apply masterInv_afterInboundFire
    split
    · refine ⟨h.gaps, ?_, ?_, ?_, ?_⟩
      · intro p hp
        exact List.mem_append_left _ (h.pend p hp)
      · intro inv hinv
        rcases h.acked inv hinv with ⟨hh, hmem, hinvk⟩
        exact ⟨hh, List.mem_append_left _ hmem, hinvk⟩
      · intro m2 hm inv hinv
        rcases h.sent m2 hm inv hinv with ⟨hh, hmem, hinvk⟩
        exact ⟨hh, List.mem_append_left _ hmem, hinvk⟩
      · intro ev hev
        rcases List.mem_append.1 hev with hOld | hNew
        · exact h.closures ev hOld
        · rw [List.mem_singleton.1 hNew]
          rfl
    · exact ⟨h.gaps, h.pend, h.acked, h.sent, h.closures⟩
  case UPDATE_SESSION =>
    simp only [handleInbound]
    cases mtok <;> split <;> try exact h
    apply masterInv_afterInboundFire
    refine ⟨h.gaps, ?_, ?_, ?_, ?_⟩
    · intro p hp
      exact List.mem_append_left _ (h.pend p hp)
    · intro inv hinv
      rcases h.acked inv hinv with ⟨hh, hmem, hinvk⟩
      exact ⟨hh, List.mem_append_left _ hmem, hinvk⟩
    · intro m2 hm inv hinv
      rcases h.sent m2 hm inv hinv with ⟨hh, hmem, hinvk⟩
      exact ⟨hh, List.mem_append_left _ hmem, hinvk⟩
    · intro ev hev
      rcases List.mem_append.1 hev with hOld | hNew
      · exact h.closures ev hOld
      · rw [List.mem_singleton.1 hNew]
        rfl
  case INVALIDATE_SESSION =>
    simp only [handleInbound]
    split
    · exact masterInv_fireThrottle _ ⟨h.gaps, h.pend, h.acked, h.sent, h.closures⟩
    · exact h
  case INVALIDATE_CLIENT_ID =>
    simp only [handleInbound]
    split
    · exact masterInv_fireThrottle _ ⟨h.gaps, h.pend, h.acked, h.sent, h.closures⟩
    · exact h
  case OBJECT_CONTROL =>
    simp only [handleInbound]
    split
    · exact masterInv_afterInboundFire _
        (masterInv_foldDeliver _ _ (masterInv_foldRegResults _ _
          (masterInv_applyIntervals _ _ h)))
    · exact h

/-- Helper: invariant preservation (masterInv_applyStep). -/
theorem masterInv_applyStep (s : Ticl) (st : Step) (h : MasterInv s) :
    MasterInv (applyStep s st) := by
  cases st with
  | advance d => exact masterInv_runReadyTasks _ (masterInv_modifyTime d s h)
  | advanceOnly d => exact masterInv_modifyTime d s h
  | run => exact masterInv_runReadyTasks _ h
  | inbound m => exact masterInv_handleInbound m s h
  | take => exact masterInv_take s h
  | register oid => exact masterInv_registerOp true oid s h
  | unregister oid => exact masterInv_registerOp false oid s h
  | invokeAck hh => exact masterInv_invokeAckHandle hh s h
  | clear => exact masterInv_clearReady s h

/-- Helper: invariant preservation (masterInv_init). -/
theorem masterInv_init (ct : Nat) (app : String) (t : Nat) :
    MasterInv (initTicl ct app t) := by
  apply masterInv_fireThrottle
  refine ⟨gapsOK_nil, ?_, ?_, ?_, ?_⟩ <;> intro x hx <;> simp at hx

/-- Helper: invariant preservation (masterInv_runSteps). -/
theorem masterInv_runSteps (s : Ticl) (h : MasterInv s) (steps : List Step) :
    MasterInv (runSteps s steps) := by
  induction steps generalizing s with
  | nil => exact h
  | cons st rest ih => exact ih _ (masterInv_applyStep s st h)

/-- Helper: the throttler call does not touch the poll interval. -/
theorem fireThrottle_pollDelay (s : Ticl) : (fireThrottle s).pollDelay = s.pollDelay := by
  unfold fireThrottle
  split
  · rfl
  · split <;> rfl

/-- Helper: the throttler call does not touch the heartbeat interval. -/
theorem fireThrottle_hbDelay (s : Ticl) : (fireThrottle s).hbDelay = s.hbDelay := by
  unfold fireThrottle
  split
  · rfl
  · split <;> rfl

/-- Helper: the throttler call does not touch the heartbeat timer. -/
theorem fireThrottle_hbNext (s : Ticl) : (fireThrottle s).hbNext = s.hbNext := by
  unfold fireThrottle
  split
  · rfl
  · split <;> rfl

/-- Helper: registration results do not touch the poll interval. -/
theorem processRegResult_pollDelay (r : RegistrationUpdateResult) (s : Ticl) :
    (processRegResult r s).pollDelay = s.pollDelay := by
  unfold processRegResult
  split
  · rfl
  · split
    · split <;> rfl
    · split <;> rfl

/-- Helper: registration results do not touch the heartbeat interval. -/
theorem processRegResult_hbDelay (r : RegistrationUpdateResult) (s : Ticl) :
    (processRegResult r s).hbDelay = s.hbDelay := by
  unfold processRegResult
  split
  · rfl
  · split
    · split <;> rfl
    · split <;> rfl

/-- Helper: registration results do not touch the heartbeat timer. -/
theorem processRegResult_hbNext (r : RegistrationUpdateResult) (s : Ticl) :
    (processRegResult r s).hbNext = s.hbNext := by
  unfold processRegResult
  split
  · rfl
  · split
    · split <;> rfl
    · split <;> rfl

/-- Helper: invalidation delivery does not touch the poll interval. -/
theorem deliverInvalidation_pollDelay (i : Invalidation) (s : Ticl) :
    (deliverInvalidation i s).pollDelay = s.pollDelay := by
  unfold deliverInvalidation
  split <;> rfl

/-- Helper: invalidation delivery does not touch the heartbeat interval. -/
theorem deliverInvalidation_hbDelay (i : Invalidation) (s : Ticl) :
    (deliverInvalidation i s).hbDelay = s.hbDelay := by
  unfold deliverInvalidation
  split <;> rfl

/-- Helper: invalidation delivery does not touch the heartbeat timer. -/
theorem deliverInvalidation_hbNext (i : Invalidation) (s : Ticl) :
    (deliverInvalidation i s).hbNext = s.hbNext := by
  unfold deliverInvalidation
  split <;> rfl

/-- Helper: the after-inbound signal does not touch the poll interval. -/
theorem afterInboundFire_pollDelay (s : Ticl) :
    (afterInboundFire s).pollDelay = s.pollDelay := by
  unfold afterInboundFire
  split
  · rw [fireThrottle_pollDelay]
  · rfl

/-- Helper: the after-inbound signal does not touch the heartbeat interval. -/
theorem afterInboundFire_hbDelay (s : Ticl) :
    (afterInboundFire s).hbDelay = s.hbDelay := by
  unfold afterInboundFire
  split
  · rw [fireThrottle_hbDelay]
  · rfl

/-- Helper: the after-inbound signal does not touch the heartbeat timer. -/
theorem afterInboundFire_hbNext (s : Ticl) :
    (afterInboundFire s).hbNext = s.hbNext := by
  unfold afterInboundFire
  split
  · rw [fireThrottle_hbNext]
  · rfl

/-- Helper: folding registration results keeps the poll interval. -/
theorem foldRegResults_pollDelay (l : List RegistrationUpdateResult) (s : Ticl) :
    (l.foldl (fun acc r => processRegResult r acc) s).pollDelay = s.pollDelay := by
  induction l generalizing s with
  | nil => rfl
  | cons r rest ih => rw [List.foldl_cons, ih, processRegResult_pollDelay]

/-- Helper: folding registration results keeps the heartbeat interval. -/
theorem foldRegResults_hbDelay (l : List RegistrationUpdateResult) (s : Ticl) :
    (l.foldl (fun acc r => processRegResult r acc) s).hbDelay = s.hbDelay := by
  induction l generalizing s with
  | nil => rfl
  | cons r rest ih => rw [List.foldl_cons, ih, processRegResult_hbDelay]

/-- Helper: folding registration results keeps the heartbeat timer. -/
theorem foldRegResults_hbNext (l : List RegistrationUpdateResult) (s : Ticl) :
    (l.foldl (fun acc r => processRegResult r acc) s).hbNext = s.hbNext := by
  induction l generalizing s with
  | nil => rfl
  | cons r rest ih => rw [List.foldl_cons, ih, processRegResult_hbNext]

/-- Helper: folding invalidation deliveries keeps the poll interval. -/
theorem foldDeliver_pollDelay (l : List Invalidation) (s : Ticl) :
    (l.foldl (fun acc i => deliverInvalidation i acc) s).pollDelay = s.pollDelay := by
  induction l generalizing s with
  | nil => rfl
  | cons i rest ih => rw [List.foldl_cons, ih, deliverInvalidation_pollDelay]

/-- Helper: folding invalidation deliveries keeps the heartbeat interval. -/
theorem foldDeliver_hbDelay (l : List Invalidation) (s : Ticl) :
    (l.foldl (fun acc i => deliverInvalidation i acc) s).hbDelay = s.hbDelay := by
  induction l generalizing s with
  | nil => rfl
  | cons i rest ih => rw [List.foldl_cons, ih, deliverInvalidation_hbDelay]

/-- Helper: folding invalidation deliveries keeps the heartbeat timer. -/
theorem foldDeliver_hbNext (l : List Invalidation) (s : Ticl) :
    (l.foldl (fun acc i => deliverInvalidation i acc) s).hbNext = s.hbNext := by
  induction l generalizing s with
  | nil => rfl
  | cons i rest ih => rw [List.foldl_cons, ih, deliverInvalidation_hbNext]

/-- Helper: applying advertised intervals keeps the heartbeat timer. -/
theorem applyIntervals_hbNext (m : ServerToClientMessage) (s : Ticl) :
    (applyIntervals m s).hbNext = s.hbNext := by
  unfold applyIntervals
  cases hp : m.next_poll_interval_ms <;> cases hh : m.next_heartbeat_interval_ms <;>
    simp only [hp, hh]

/-- Helper: an accepted object-control message installs the advertised poll
interval (the last advertised value wins). -/
theorem pollDelay_lastwins (s : Ticl) (m : ServerToClientMessage) (P : Nat)
    (hst : s.state = ClientState.TOKEN_VALID)
    (hmt : m.message_type = SCMessageType.OBJECT_CONTROL)
    (htok : m.session_token = some s.sessionToken)
    (hP : m.next_poll_interval_ms = some P) :
    (handleInbound m s).pollDelay = P := by
  unfold handleInbound
  rw [hmt]
  simp only [hst, htok, beq_self_eq_true, Bool.and_self, if_true]
  rw [afterInboundFire_pollDelay, foldDeliver_pollDelay, foldRegResults_pollDelay]
  unfold applyIntervals
  rw [hP]
  cases hh : m.next_heartbeat_interval_ms <;> simp only [hh]

/-- Helper: an accepted object-control message installs the advertised
heartbeat interval (the last advertised value wins). -/
theorem hbDelay_lastwins (s : Ticl) (m : ServerToClientMessage) (H : Nat)
    (hst : s.state = ClientState.TOKEN_VALID)
    (hmt : m.message_type = SCMessageType.OBJECT_CONTROL)
    (htok : m.session_token = some s.sessionToken)
    (hH : m.next_heartbeat_interval_ms = some H) :
    (handleInbound m s).hbDelay = H := by
  unfold handleInbound
  rw [hmt]
  simp only [hst, htok, beq_self_eq_true, Bool.and_self, if_true]
  rw [afterInboundFire_hbDelay, foldDeliver_hbDelay, foldRegResults_hbDelay]
  unfold applyIntervals
  rw [hH]

/-- Helper: in TOKEN_VALID a taken message polls exactly when the poll
interval has elapsed since the previous poll. -/
theorem takeAction_poll_iff (s : Ticl) (hst : s.state = ClientState.TOKEN_VALID) :
    ((takeOutboundMessage s).1.action = some CSAction.POLL_INVALIDATIONS ↔
      s.lastPoll + s.pollDelay ≤ s.now) := by
  have h : (takeOutboundMessage s).1.action =
      if s.lastPoll + s.pollDelay ≤ s.now then some CSAction.POLL_INVALIDATIONS
      else none := by
    simp only [takeOutboundMessage, hst, decide_eq_true_eq]
  rw [h]
  split <;> simp_all

/-- Helper: no inbound message moves the in-flight heartbeat tick; only the
tick itself and outbound sends reschedule the single timer. -/
theorem handleInbound_hbNext (m : ServerToClientMessage) (s : Ticl) :
    (handleInbound m s).hbNext = s.hbNext := by
  obtain ⟨mt, mstatus, mcid, mtok, mnonce, mct, mapp, mpoll, mhb, minvs, mress⟩ := m
  cases mt
  case ASSIGN_CLIENT_ID =>
    simp only [handleInbound]
    cases mcid <;> cases mtok <;> split <;> try rfl
    rw [afterInboundFire_hbNext]
    split <;> rfl
  case UPDATE_SESSION =>
    simp only [handleInbound]
    cases mtok <;> split <;> try rfl
    rw [afterInboundFire_hbNext]
  case INVALIDATE_SESSION =>
    simp only [handleInbound]
    split <;> try rfl
    rw [fireThrottle_hbNext]
  case INVALIDATE_CLIENT_ID =>
    simp only [handleInbound]
    split <;> try rfl
    rw [fireThrottle_hbNext]
  case OBJECT_CONTROL =>
    simp only [handleInbound]
    split <;> try rfl
    rw [afterInboundFire_hbNext, foldDeliver_hbNext, foldRegResults_hbNext,
        applyIntervals_hbNext]

/-- Helper: the heartbeat tick never signals before the current interval
has elapsed since the last send, so a lengthening is effective at once. -/
theorem runHbTick_no_early_ping (s : Ticl) (h : s.now < s.lastSend + s.hbDelay) :
    (runHbTick s).pings = s.pings ∧ (runHbTick s).ready = s.ready := by
  unfold runHbTick
  split
  · have hd : hbDue s = false := by
      unfold hbDue
      simp only [decide_eq_false_iff_not]
      omega
    rw [hd]
    simp
  · exact ⟨rfl, rfl⟩

/-- Helper: once the in-flight tick elapses, the timer is re-armed with the
current (possibly shortened) interval. -/
theorem runHbTick_reschedules (s : Ticl) (h : s.hbNext ≤ s.now) :
    (runHbTick s).hbNext = s.now + s.hbDelay := by
  unfold runHbTick
  rw [if_pos h]
  split
  · rw [fireThrottle_hbNext]
  · rfl

/-- C1: starting from the initial NO_CLIENT state with external id
(CHROME_SYNC, "app_name"), the first outbound message has action
ASSIGN_CLIENT_ID and carries the client type, the application client id and
a nonce, and carries no session token, zero register operations and zero
acked invalidations; after a response with matching nonce and echoed
external id, the next outbound message carries the assigned session token
and action POLL_INVALIDATIONS. -/
theorem C1_cold_start_assignment :
    (takeOutboundMessage (runSteps scenarioInit [Step.run])).1 = assignRequestMsg ∧
    assignRequestMsg.action = some CSAction.ASSIGN_CLIENT_ID ∧
    assignRequestMsg.client_type = some CHROME_SYNC ∧
    assignRequestMsg.app_client_id = some "app_name" ∧
    assignRequestMsg.nonce = some (runSteps scenarioInit [Step.run]).nonce ∧
    assignRequestMsg.session_token = none ∧
    assignRequestMsg.register_operations = [] ∧
    assignRequestMsg.acked_invalidations = [] ∧
    assignResponse.nonce = assignRequestMsg.nonce ∧
    assignResponse.client_type = assignRequestMsg.client_type ∧
    assignResponse.app_client_id = assignRequestMsg.app_client_id ∧
    (takeOutboundMessage (runSteps scenarioInit
      [Step.run, Step.take, Step.clear, Step.inbound assignResponse, Step.run])).1 =
      pollRequestMsg ∧
    pollRequestMsg.session_token = some "opaque_data" ∧
    pollRequestMsg.action = some CSAction.POLL_INVALIDATIONS := by
  decide

/-- C3: an outbound message in TOKEN_VALID carries exactly the due
unconfirmed registration operations (ids, op types and sequence numbers
from the stored entries) and never a confirmed one; concretely, after the
registration timeout the client resends both unacked ops unchanged, after
HISTORY is acked it resends only BOOKMARKS, and once both are acked it
sends zero register operations. -/
theorem C3_registration_retry :
    (∀ s : Ticl, s.state = ClientState.TOKEN_VALID →
      (takeOutboundMessage s).1.register_operations =
        (s.regs.filter (regDue s.now)).map regEntryToUpdate ∧
      ∀ op ∈ (takeOutboundMessage s).1.register_operations,
        ∃ e ∈ s.regs, e.confirmed = false ∧ regEntryToUpdate e = op) ∧
    (takeOutboundMessage retryS1).1.register_operations = [regUpd1, regUpd2] ∧
    (takeOutboundMessage retryS2).1.register_operations = [regUpd1] ∧
    (takeOutboundMessage retryS3).1.register_operations = [] := by
  refine ⟨?_, by decide, by decide, by decide⟩
  intro s h
  have h1 : (takeOutboundMessage s).1.register_operations =
      (s.regs.filter (regDue s.now)).map regEntryToUpdate := by
    simp only [takeOutboundMessage, h, dueRegOps]
  refine ⟨h1, ?_⟩
  intro op hop
  rw [h1] at hop
  rcases List.mem_map.1 hop with ⟨e, he, rfl⟩
  rcases List.mem_filter.1 he with ⟨hmem, hdue⟩
  refine ⟨e, hmem, ?_, rfl⟩
  unfold regDue at hdue
  rw [Bool.and_eq_true] at hdue
  simpa using hdue.1

/-- C3 witness: the general clause applied to the concrete retry state. -/
theorem C3_registration_retry_witness :
    (takeOutboundMessage retryS1).1.register_operations =
      (retryS1.regs.filter (regDue retryS1.now)).map regEntryToUpdate :=
  (C3_registration_retry.1 retryS1 (by decide)).1

/-- C2: in every run of the engine, every acked invalidation appearing in
any outbound message has a prior Invalidate delivery to the listener whose
ack handle the application invoked, for the same object id and version;
concretely, after the invalidation is delivered the next taken message
carries no ack, and after the handle is invoked the next batched message
carries exactly one ack equal to (BOOKMARKS, 5). -/
theorem C2_deferred_ack :
    (∀ (ct : Nat) (app : String) (t : Nat) (steps : List Step),
      ∀ m ∈ (runSteps (initTicl ct app t) steps).sentMessages,
      ∀ inv ∈ m.acked_invalidations, ∃ h,
        ListenerEvent.invalidate inv h freshClosure ∈
          (runSteps (initTicl ct app t) steps).listenerLog ∧
        h ∈ (runSteps (initTicl ct app t) steps).invokedHandles) ∧
    ListenerEvent.invalidate inv1 0 freshClosure ∈ ackS1.listenerLog ∧
    (takeOutboundMessage ackS1).1.acked_invalidations = [] ∧
    (takeOutboundMessage ackS2).1.acked_invalidations = [inv1] := by
  refine ⟨?_, by decide, by decide, by decide⟩
  intro ct app t steps m hm inv hinv
  exact (masterInv_runSteps _ (masterInv_init ct app t) steps).sent m hm inv hinv

/-- C2 witness: the quantified clause applied to the concrete deferred-ack
trace and its final outbound message. -/
theorem C2_deferred_ack_witness :
    ∃ h,
      ListenerEvent.invalidate inv1 h freshClosure ∈
        (runSteps (initTicl CHROME_SYNC "app_name" t0) ackTrace).listenerLog ∧
      h ∈ (runSteps (initTicl CHROME_SYNC "app_name" t0) ackTrace).invokedHandles :=
  C2_deferred_ack.1 CHROME_SYNC "app_name" t0 ackTrace
    { action := none
      session_token := some "opaque_data"
      nonce := none
      client_type := none
      app_client_id := none
      client_id := none
      register_operations := []
      acked_invalidations := [inv1] }
    (by decide) inv1 (by decide)

/-- C10: every callback the engine passes to a listener upcall is the
permanent (repeatable) callback, in every run of the engine. -/
theorem C10_repeatable_callbacks :
    ∀ (ct : Nat) (app : String) (t : Nat) (steps : List Step),
      ∀ ev ∈ (runSteps (initTicl ct app t) steps).listenerLog,
        IsCallbackRepeatable (eventClosure ev) = true := by
  intro ct app t steps ev hev
  have h := (masterInv_runSteps _ (masterInv_init ct app t) steps).closures ev hev
  rw [h]
  rfl

/-- C10 witness: the repeatability of the callback delivered with the
concrete invalidation of the deferred-ack trace. -/
theorem C10_repeatable_callbacks_witness :
    IsCallbackRepeatable
      (eventClosure (ListenerEvent.invalidate inv1 0 freshClosure)) = true :=
  C10_repeatable_callbacks CHROME_SYNC "app_name" t0 ackTrace
    (ListenerEvent.invalidate inv1 0 freshClosure) (by decide)

/-- C4: a matching INVALIDATE_SESSION in TOKEN_VALID moves the client to
NO_SESSION; the next outbound message is an UPDATE_SESSION request whose
client id is the current uniquifier; a successful UPDATE_SESSION response
carrying the new session token returns the client to TOKEN_VALID and the
listener receives AllRegistrationsLost exactly once. -/
theorem C4_session_switch :
    sessionS1.state = ClientState.NO_SESSION ∧
    sessionS1.uniquifier = "uniquifier" ∧
    (takeOutboundMessage sessionS1).1.action = some CSAction.UPDATE_SESSION ∧
    (takeOutboundMessage sessionS1).1.client_id = some "uniquifier" ∧
    countAllRegLost sessionS1.listenerLog = 0 ∧
    sessionS2.state = ClientState.TOKEN_VALID ∧
    sessionS2.sessionToken = "NEW_OPAQUE_DATA" ∧
    countAllRegLost sessionS2.listenerLog = 1 := by
  decide

/-- C7: an inbound message whose identity credential does not match the
current state is dropped with no state change (hence no upcall): an
INVALIDATE_SESSION with a different session token, an INVALIDATE_CLIENT_ID
with a different client id, and ASSIGN_CLIENT_ID responses whose echoed
external id or nonce do not match; the next outbound message afterwards
carries no action, except in NO_CLIENT where it again carries
ASSIGN_CLIENT_ID. -/
theorem C7_identity_mismatch_dropped :
    handleInbound bogusSessionMsg afterRegS = afterRegS ∧
    (takeOutboundMessage
      (runSteps afterRegS [Step.inbound bogusSessionMsg, Step.run])).1.action = none ∧
    handleInbound bogusClientIdMsg afterRegS = afterRegS ∧
    (takeOutboundMessage
      (runSteps afterRegS [Step.inbound bogusClientIdMsg, Step.run])).1.action = none ∧
    handleInbound wrongAppIdResponse noClientS = noClientS ∧
    handleInbound wrongNonceResponse noClientS = noClientS ∧
    (takeOutboundMessage (runSteps noClientS
      [Step.inbound wrongAppIdResponse, Step.run])).1.action =
      some CSAction.ASSIGN_CLIENT_ID := by
  decide

/-- C5: with the last advertised poll interval P installed, an outbound
message carries POLL_INVALIDATIONS exactly when P milliseconds have elapsed
since the previous poll — never strictly before, and as soon as P has
elapsed; an accepted object-control message makes its advertised interval
the current one (last value wins); concretely the 10 s and then 100 s
advertisements of the polling scenario behave exactly so. -/
theorem C5_polling_interval :
    (∀ s : Ticl, s.state = ClientState.TOKEN_VALID →
      ((takeOutboundMessage s).1.action = some CSAction.POLL_INVALIDATIONS ↔
        s.lastPoll + s.pollDelay ≤ s.now)) ∧
    (∀ (s : Ticl) (m : ServerToClientMessage) (P : Nat),
      s.state = ClientState.TOKEN_VALID →
      m.message_type = SCMessageType.OBJECT_CONTROL →
      m.session_token = some s.sessionToken →
      m.next_poll_interval_ms = some P →
      (handleInbound m s).pollDelay = P) ∧
    pollS1.pollDelay = 10000 ∧
    (takeOutboundMessage pollS1).1.action = none ∧
    (takeOutboundMessage pollS2).1.action = some CSAction.POLL_INVALIDATIONS ∧
    pollS3.pollDelay = 100000 ∧
    (takeOutboundMessage pollS3).1.action = none ∧
    (takeOutboundMessage pollS4).1.action = some CSAction.POLL_INVALIDATIONS := by
  exact ⟨takeAction_poll_iff, fun s m P hst hmt htok hP =>
    pollDelay_lastwins s m P hst hmt htok hP,
    by decide, by decide, by decide, by decide, by decide, by decide⟩

/-- C5 witness: the poll-iff clause applied to the scenario state whose
interval has just elapsed. -/
theorem C5_polling_interval_witness :
    ((takeOutboundMessage pollS2).1.action = some CSAction.POLL_INVALIDATIONS ↔
      pollS2.lastPoll + pollS2.pollDelay ≤ pollS2.now) :=
  C5_polling_interval.1 pollS2 (by decide)

/-- C9: the client heartbeats at the last advertised interval: an accepted
object-control message installs its advertised heartbeat interval; no
inbound message moves the in-flight tick of the single periodic timer (so a
shortening waits for that tick), while the tick never signals before the
current interval has elapsed since the last send (so a lengthening is
effective at once); after the in-flight tick elapses the timer is re-armed
with the current interval; the heartbeat scenario observes exactly the
lengthen-then-shorten behaviour of the test. -/
theorem C9_heartbeat_interval :
    (∀ (s : Ticl) (m : ServerToClientMessage) (H : Nat),
      s.state = ClientState.TOKEN_VALID →
      m.message_type = SCMessageType.OBJECT_CONTROL →
      m.session_token = some s.sessionToken →
      m.next_heartbeat_interval_ms = some H →
      (handleInbound m s).hbDelay = H) ∧
    (∀ (m : ServerToClientMessage) (s : Ticl),
      (handleInbound m s).hbNext = s.hbNext) ∧
    (∀ s : Ticl, s.now < s.lastSend + s.hbDelay →
      (runHbTick s).pings = s.pings ∧ (runHbTick s).ready = s.ready) ∧
    (∀ s : Ticl, s.hbNext ≤ s.now → (runHbTick s).hbNext = s.now + s.hbDelay) ∧
    hbS1.ready = false ∧
    hbS2.ready = true ∧
    hbS3.ready = true ∧
    hbS4.ready = false ∧
    hbS5.ready = true := by
  exact ⟨fun s m H hst hmt htok hH => hbDelay_lastwins s m H hst hmt htok hH,
    handleInbound_hbNext, runHbTick_no_early_ping, runHbTick_reschedules,
    by decide, by decide, by decide, by decide, by decide⟩

/-- C9 witness: the early-tick clause applied to the scenario state one
millisecond short of the shortened interval. -/
theorem C9_heartbeat_interval_witness :
    (runHbTick hbS4).pings = hbS4.pings ∧ (runHbTick hbS4).ready = hbS4.ready :=
  C9_heartbeat_interval.2.2.1 hbS4 (by decide)

/-- C8: a registration result with permanent failure status OBJECT_UNKNOWN
invokes the registration callback exactly once with that failing result,
removes the entry, and no later outbound message carries a register
operation for that object, even after the registration timeout. -/
theorem C8_permanent_failure_no_retry :
    failS.regResults =
      [{ operation := regUpd1, status := StatusCode.OBJECT_UNKNOWN },
       { operation := regUpd2, status := StatusCode.SUCCESS }] ∧
    (failS.regResults.filter
      (fun r => r.operation.object_id == oid1)).length = 1 ∧
    failS.regs.filter (fun e => e.object_id == oid1) = [] ∧
    (takeOutboundMessage failS).1.register_operations = [] := by
  decide

/-- Simulation helper: the heartbeat tick during the throttling loop. -/
theorem sim_tickQuiet (p : Nat) (l : List Nat) (k : Nat) (d T : Nat) (hT : p + 10 ≤ T) :
    runHbTick (modifyTime 10 (quietState p l k d T).1) =
      { (quietState p l k d T).1 with now := T + 10, hbNext := T + 10 + 1 } := by
  unfold runHbTick hbDue modifyTime quietState
  simp only [decide_eq_true_eq]
  rw [if_pos (by omega : T + 1 ≤ T + 10)]
  rw [if_pos (by omega : p + 1 ≤ T + 10)]
  unfold fireThrottle
  rfl

/-- Simulation helper: the poll task during the throttling loop. -/
theorem sim_pollQuiet (p : Nat) (l : List Nat) (k : Nat) (d T : Nat) (hT : p + 10 ≤ T) :
    runPollTask { (quietState p l k d T).1 with now := T + 10, hbNext := T + 10 + 1 } =
      { (quietState p l k d T).1 with
          now := T + 10
          hbNext := T + 10 + 1
          pollNext := T + 10 + 1 } := by
  unfold runPollTask pollDue quietState
  simp only [beq_self_eq_true, Bool.true_and, decide_eq_true_eq]
  rw [if_pos (by omega : T + 1 ≤ T + 10)]
  rw [if_pos (by omega : p + 1 ≤ T + 10)]
  unfold fireThrottle
  rfl

/-- Simulation helper: one loop iteration strictly between signals. -/
theorem sim_stepQuiet (p : Nat) (l : List Nat) (k : Nat) (d T : Nat)
    (hT : p + 10 ≤ T) (hd : T + 10 < d) :
    simStepFn (quietState p l k d T) = quietState p l k d (T + 10) := by
  have hdef : runDeferredTask
      { (quietState p l k d T).1 with
          now := T + 10
          hbNext := T + 10 + 1
          pollNext := T + 10 + 1 } =
      { (quietState p l k d T).1 with
          now := T + 10
          hbNext := T + 10 + 1
          pollNext := T + 10 + 1 } := by
    unfold runDeferredTask quietState
    simp only []
    rw [if_neg (by omega : ¬ d ≤ T + 10)]
  have hrun : runReadyTasks (modifyTime 10 (quietState p l k d T).1) =
      { (quietState p l k d T).1 with
          now := T + 10
          hbNext := T + 10 + 1
          pollNext := T + 10 + 1 } := by
    unfold runReadyTasks
    rw [sim_tickQuiet p l k d T hT, sim_pollQuiet p l k d T hT, hdef]
  unfold simStepFn
  rw [hrun]
  rfl

/-- Simulation helper: the loop iteration in which the deferred signal fires and the loop takes the poll message. -/
theorem sim_stepPing (p : Nat) (l : List Nat) (k : Nat) (d T : Nat)
    (hT : p + 10 ≤ T) (heq : T + 10 = d)
    (hA : throttleAllowed d (p :: l) = true) :
    simStepFn (quietState p l k d T) = postTakeState d (p :: l) (k + 1) := by
  subst heq
  have hdef : runDeferredTask
      { (quietState p l k (T + 10) T).1 with
          now := T + 10
          hbNext := T + 10 + 1
          pollNext := T + 10 + 1 } =
      { (quietState p l k (T + 10) T).1 with
          now := T + 10
          hbNext := T + 10 + 1
          pollNext := T + 10 + 1
          pings := (T + 10) :: p :: l
          ready := true
          deferredUntil := none } := by
    unfold runDeferredTask quietState
    simp only []
    rw [if_pos (by omega : T + 10 ≤ T + 10)]
    simp only [if_true]
    rw [if_pos hA]
    unfold doPing
    rfl
  have hrun : runReadyTasks (modifyTime 10 (quietState p l k (T + 10) T).1) =
      { (quietState p l k (T + 10) T).1 with
          now := T + 10
          hbNext := T + 10 + 1
          pollNext := T + 10 + 1
          pings := (T + 10) :: p :: l
          ready := true
          deferredUntil := none } := by
    unfold runReadyTasks
    rw [sim_tickQuiet p l k (T + 10) T hT, sim_pollQuiet p l k (T + 10) T hT, hdef]
  unfold simStepFn
  rw [hrun]
  rw [if_pos rfl]
  unfold takeOutboundMessage clearReady quietState dueRegOps regDue
  simp only [List.filter_nil, List.map_nil, decide_eq_true_eq]
  have hp10 : p + 1 ≤ T + 10 := by omega
  rw [if_pos hp10, if_pos hp10]
  unfold postTakeState pollRequestMsg
  rfl

/-- Simulation helper: the first loop iteration after a take, which defers the next signal to the earliest admissible time. -/
theorem sim_stepFirst (p : Nat) (l : List Nat) (k : Nat) (d : Nat)
    (hd : d = throttleEarliest (p + 10) (p :: l))
    (hgap : p + 1000 ≤ d) :
    simStepFn (postTakeState p l k) = quietState p l k d (p + 10) := by
  have hNA : throttleAllowed (p + 10) (p :: l) = false := by
    unfold throttleAllowed
    have h1 : decide ((p :: l).length < 1 ∨
        (p :: l).getD 0 0 + fineThrottleWindowMs ≤ p + 10) = false := by
      simp only [List.length_cons, List.getD_cons_zero, fineThrottleWindowMs,
        decide_eq_false_iff_not, not_or]
      constructor <;> omega
    rw [h1, Bool.false_and]
  have hhb : runHbTick (modifyTime 10 (postTakeState p l k).1) =
      { (postTakeState p l k).1 with
          now := p + 10
          hbNext := p + 10 + 1
          hasOutboundData := true
          deferredUntil := some d } := by
    unfold runHbTick hbDue modifyTime postTakeState
    simp only [decide_eq_true_eq]
    rw [if_pos (by omega : p + 1 ≤ p + 10)]
    rw [if_pos (by omega : p + 1 ≤ p + 10)]
    unfold fireThrottle
    simp only []
    rw [hNA]
    simp only [Bool.false_eq_true, if_false]
    rw [← hd]
  have hpoll : runPollTask
      { (postTakeState p l k).1 with
          now := p + 10
          hbNext := p + 10 + 1
          hasOutboundData := true
          deferredUntil := some d } =
      { (postTakeState p l k).1 with
          now := p + 10
          hbNext := p + 10 + 1
          hasOutboundData := true
          deferredUntil := some d
          pollNext := p + 10 + 1 } := by
    unfold runPollTask pollDue postTakeState
    simp only [beq_self_eq_true, Bool.true_and, decide_eq_true_eq]
    rw [if_pos (by omega : p + 1 ≤ p + 10)]
    rw [if_pos (by omega : p + 1 ≤ p + 10)]
    unfold fireThrottle
    rfl
  have hdef : runDeferredTask
      { (postTakeState p l k).1 with
          now := p + 10
          hbNext := p + 10 + 1
          hasOutboundData := true
          deferredUntil := some d
          pollNext := p + 10 + 1 } =
      { (postTakeState p l k).1 with
          now := p + 10
          hbNext := p + 10 + 1
          hasOutboundData := true
          deferredUntil := some d
          pollNext := p + 10 + 1 } := by
    unfold runDeferredTask postTakeState
    simp only []
    rw [if_neg (by omega : ¬ d ≤ p + 10)]
  have hrun : runReadyTasks (modifyTime 10 (postTakeState p l k).1) =
      { (postTakeState p l k).1 with
          now := p + 10
          hbNext := p + 10 + 1
          hasOutboundData := true
          deferredUntil := some d
          pollNext := p + 10 + 1 } := by
    unfold runReadyTasks
    rw [hhb, hpoll, hdef]
  unfold simStepFn
  rw [hrun]
  rfl

/-- Simulation helper: iteration splits over addition. -/
theorem simIter_add (a b : Nat) (q : Ticl × Nat) :
    simIter (a + b) q = simIter b (simIter a q) := by
  induction a generalizing q with
  | zero =>
    rw [Nat.zero_add]
    rfl
  | succ n ih =>
    have h1 : n + 1 + b = n + b + 1 := by omega
    rw [h1]
    have h2 : simIter (n + b + 1) q = simIter (n + b) (simStepFn q) := rfl
    rw [h2, ih (simStepFn q)]
    rfl

/-- Simulation helper: iterating the quiet step. -/
theorem sim_quietRun (p : Nat) (l : List Nat) (k : Nat) (d T m : Nat)
    (hT : p + 10 ≤ T) (hm : T + 10 * m < d) :
    simIter m (quietState p l k d T) = quietState p l k d (T + 10 * m) := by
  induction m generalizing T with
  | zero => rfl
  | succ n ih =>
    have harith : T + 10 * (n + 1) = T + 10 + 10 * n := by omega
    rw [harith]
    show simIter n (simStepFn (quietState p l k d T)) = _
    rw [sim_stepQuiet p l k d T hT (by omega)]
    exact ih (T + 10) (by omega) (by omega)

/-- Simulation helper: the loop runs from one counted signal to the next. -/
theorem sim_interPing (p : Nat) (l : List Nat) (k : Nat) (d m : Nat)
    (hd : d = throttleEarliest (p + 10) (p :: l))
    (hgap : p + 1000 ≤ d)
    (hA : throttleAllowed d (p :: l) = true)
    (hm : d = p + 10 * (m + 2)) :
    simIter (m + 2) (postTakeState p l k) = postTakeState d (p :: l) (k + 1) := by
  show simIter (m + 1) (simStepFn (postTakeState p l k)) = _
  rw [sim_stepFirst p l k d hd hgap]
  rw [show m + 1 = m + 1 by rfl]
  have hsplit : simIter (m + 1) (quietState p l k d (p + 10)) =
      simIter 1 (simIter m (quietState p l k d (p + 10))) := by
    rw [← simIter_add]
  rw [hsplit]
  rw [sim_quietRun p l k d (p + 10) m (by omega) (by omega)]
  show simStepFn (quietState p l k d (p + 10 + 10 * m)) = _
  exact sim_stepPing p l k d (p + 10 + 10 * m) (by omega) (by omega) hA

/-- Simulation helper: the deferred time respects the fine window. -/
theorem throttleEarliest_fine (t x : Nat) (l : List Nat) :
    x + 1000 ≤ throttleEarliest t (x :: l) := by
  unfold throttleEarliest
  have h1 : ¬ (x :: l).length < 1 := by simp
  rw [if_neg h1]
  simp only [List.getD_cons_zero, fineThrottleWindowMs]
  exact le_max_of_le_right (le_max_left _ _)

/-- Simulation helper: the deferred time is admissible. -/
theorem throttleAllowed_earliest (t : Nat) (l : List Nat) :
    throttleAllowed (throttleEarliest t l) l = true := by
  unfold throttleAllowed throttleEarliest
  rw [Bool.and_eq_true, decide_eq_true_eq, decide_eq_true_eq]
  constructor
  · by_cases h : l.length < 1
    · exact Or.inl h
    · refine Or.inr ?_
      rw [if_neg h]
      exact le_max_of_le_right (le_max_left _ _)
  · by_cases h : l.length < coarseThrottleCount
    · exact Or.inl h
    · refine Or.inr ?_
      rw [if_neg h]
      exact le_max_of_le_right (le_max_right _ _)

/-- Simulation helper: one stage of the counted-signal schedule. -/
theorem sim_stage (j m : Nat)
    (hm : pingAt (j + 2) = pingAt (j + 1) + 10 * (m + 2)) :
    simIter (m + 2) (stageState (j + 1)) = stageState (j + 2) := by
  have hd : pingAt (j + 2) =
      throttleEarliest (pingAt (j + 1) + 10) (pingAt (j + 1) :: pingsAfter j) := rfl
  have hgap : pingAt (j + 1) + 1000 ≤ pingAt (j + 2) := by
    rw [hd]
    exact throttleEarliest_fine _ _ _
  have hA : throttleAllowed (pingAt (j + 2)) (pingAt (j + 1) :: pingsAfter j) = true := by
    rw [hd]
    exact throttleAllowed_earliest _ _
  exact sim_interPing (pingAt (j + 1)) (pingsAfter j) (j + 1) (pingAt (j + 2)) m
    hd hgap hA hm

set_option maxRecDepth 1000000 in
/-- Simulation helper: the first hundred loop iterations produce the first counted signal. -/
theorem sim_base : simIter 100 (throttleStart, 0) = stageState 1 := by decide

set_option maxRecDepth 1000000 in
theorem simStage01 : simIter 100 (stageState 1) = stageState 2 := sim_stage 0 98 (by decide)

set_option maxRecDepth 1000000 in
theorem simStage02 : simIter 100 (stageState 2) = stageState 3 := sim_stage 1 98 (by decide)

set_option maxRecDepth 1000000 in
theorem simStage03 : simIter 100 (stageState 3) = stageState 4 := sim_stage 2 98 (by decide)

set_option maxRecDepth 1000000 in
theorem simStage04 : simIter 100 (stageState 4) = stageState 5 := sim_stage 3 98 (by decide)

set_option maxRecDepth 1000000 in
theorem simStage05 : simIter 5500 (stageState 5) = stageState 6 := sim_stage 4 5498 (by decide)

set_option maxRecDepth 1000000 in
theorem simStage06 : simIter 100 (stageState 6) = stageState 7 := sim_stage 5 98 (by decide)

set_option maxRecDepth 1000000 in
theorem simStage07 : simIter 100 (stageState 7) = stageState 8 := sim_stage 6 98 (by decide)

set_option maxRecDepth 1000000 in
theorem simStage08 : simIter 100 (stageState 8) = stageState 9 := sim_stage 7 98 (by decide)

set_option maxRecDepth 1000000 in
theorem simStage09 : simIter 100 (stageState 9) = stageState 10 := sim_stage 8 98 (by decide)

set_option maxRecDepth 1000000 in
theorem simStage10 : simIter 100 (stageState 10) = stageState 11 := sim_stage 9 98 (by decide)

set_option maxRecDepth 1000000 in
theorem simStage11 : simIter 5500 (stageState 11) = stageState 12 := sim_stage 10 5498 (by decide)

set_option maxRecDepth 1000000 in
theorem simStage12 : simIter 100 (stageState 12) = stageState 13 := sim_stage 11 98 (by decide)

set_option maxRecDepth 1000000 in
theorem simStage13 : simIter 100 (stageState 13) = stageState 14 := sim_stage 12 98 (by decide)

set_option maxRecDepth 1000000 in
theorem simStage14 : simIter 100 (stageState 14) = stageState 15 := sim_stage 13 98 (by decide)

set_option maxRecDepth 1000000 in
theorem simStage15 : simIter 100 (stageState 15) = stageState 16 := sim_stage 14 98 (by decide)

set_option maxRecDepth 1000000 in
theorem simStage16 : simIter 100 (stageState 16) = stageState 17 := sim_stage 15 98 (by decide)

set_option maxRecDepth 1000000 in
theorem simStage17 : simIter 5500 (stageState 17) = stageState 18 := sim_stage 16 5498 (by decide)

set_option maxRecDepth 1000000 in
theorem simStage18 : simIter 100 (stageState 18) = stageState 19 := sim_stage 17 98 (by decide)

set_option maxRecDepth 1000000 in
theorem simStage19 : simIter 100 (stageState 19) = stageState 20 := sim_stage 18 98 (by decide)

set_option maxRecDepth 1000000 in
theorem simStage20 : simIter 100 (stageState 20) = stageState 21 := sim_stage 19 98 (by decide)

set_option maxRecDepth 1000000 in
theorem simStage21 : simIter 100 (stageState 21) = stageState 22 := sim_stage 20 98 (by decide)

set_option maxRecDepth 1000000 in
theorem simStage22 : simIter 100 (stageState 22) = stageState 23 := sim_stage 21 98 (by decide)

set_option maxRecDepth 1000000 in
theorem simStage23 : simIter 5500 (stageState 23) = stageState 24 := sim_stage 22 5498 (by decide)

set_option maxRecDepth 1000000 in
theorem simStage24 : simIter 100 (stageState 24) = stageState 25 := sim_stage 23 98 (by decide)

set_option maxRecDepth 1000000 in
theorem simStage25 : simIter 100 (stageState 25) = stageState 26 := sim_stage 24 98 (by decide)

set_option maxRecDepth 1000000 in
theorem simStage26 : simIter 100 (stageState 26) = stageState 27 := sim_stage 25 98 (by decide)

set_option maxRecDepth 1000000 in
theorem simStage27 : simIter 100 (stageState 27) = stageState 28 := sim_stage 26 98 (by decide)

set_option maxRecDepth 1000000 in
theorem simStage28 : simIter 100 (stageState 28) = stageState 29 := sim_stage 27 98 (by decide)

set_option maxRecDepth 1000000 in
theorem simStage29 : simIter 5500 (stageState 29) = stageState 30 := sim_stage 28 5498 (by decide)

/-- Simulation helper: the five-minute loop counts exactly thirty signals. -/
theorem sim_count : (simIter 30000 (throttleStart, 0)).2 = 30 := by
  have main : simIter 30000 (throttleStart, 0) = stageState 30 := by
    rw [show (30000 : Nat) = 100 + 29900 by norm_num, simIter_add, sim_base]
    rw [show (29900 : Nat) = 100 + 29800 by norm_num, simIter_add, simStage01]
    rw [show (29800 : Nat) = 100 + 29700 by norm_num, simIter_add, simStage02]
    rw [show (29700 : Nat) = 100 + 29600 by norm_num, simIter_add, simStage03]
    rw [show (29600 : Nat) = 100 + 29500 by norm_num, simIter_add, simStage04]
    rw [show (29500 : Nat) = 5500 + 24000 by norm_num, simIter_add, simStage05]
    rw [show (24000 : Nat) = 100 + 23900 by norm_num, simIter_add, simStage06]
    rw [show (23900 : Nat) = 100 + 23800 by norm_num, simIter_add, simStage07]
    rw [show (23800 : Nat) = 100 + 23700 by norm_num, simIter_add, simStage08]
    rw [show (23700 : Nat) = 100 + 23600 by norm_num, simIter_add, simStage09]
    rw [show (23600 : Nat) = 100 + 23500 by norm_num, simIter_add, simStage10]
    rw [show (23500 : Nat) = 5500 + 18000 by norm_num, simIter_add, simStage11]
    rw [show (18000 : Nat) = 100 + 17900 by norm_num, simIter_add, simStage12]
    rw [show (17900 : Nat) = 100 + 17800 by norm_num, simIter_add, simStage13]
    rw [show (17800 : Nat) = 100 + 17700 by norm_num, simIter_add, simStage14]
    rw [show (17700 : Nat) = 100 + 17600 by norm_num, simIter_add, simStage15]
    rw [show (17600 : Nat) = 100 + 17500 by norm_num, simIter_add, simStage16]
    rw [show (17500 : Nat) = 5500 + 12000 by norm_num, simIter_add, simStage17]
    rw [show (12000 : Nat) = 100 + 11900 by norm_num, simIter_add, simStage18]
    rw [show (11900 : Nat) = 100 + 11800 by norm_num, simIter_add, simStage19]
    rw [show (11800 : Nat) = 100 + 11700 by norm_num, simIter_add, simStage20]
    rw [show (11700 : Nat) = 100 + 11600 by norm_num, simIter_add, simStage21]
    rw [show (11600 : Nat) = 100 + 11500 by norm_num, simIter_add, simStage22]
    rw [show (11500 : Nat) = 5500 + 6000 by norm_num, simIter_add, simStage23]
    rw [show (6000 : Nat) = 100 + 5900 by norm_num, simIter_add, simStage24]
    rw [show (5900 : Nat) = 100 + 5800 by norm_num, simIter_add, simStage25]
    rw [show (5800 : Nat) = 100 + 5700 by norm_num, simIter_add, simStage26]
    rw [show (5700 : Nat) = 100 + 5600 by norm_num, simIter_add, simStage27]
    rw [show (5600 : Nat) = 100 + 5500 by norm_num, simIter_add, simStage28]
    exact simStage29
  rw [main]
  rfl

/-- C6: outbound-ready signals obey both throttle windows in every run:
successive recorded signals are at least the fine window (one second)
apart, and any run of seven consecutive signals spans more than the coarse
window (at most six signals in any sixty seconds); concretely, with both
intervals set to one millisecond, five minutes of simulated time in
ten-millisecond steps yields exactly thirty outbound-ready signals, within
the twenty-eight to thirty band. -/
theorem C6_throttle_windows :
    (∀ (ct : Nat) (app : String) (t : Nat) (steps : List Step),
      GapsOK (runSteps (initTicl ct app t) steps).pings) ∧
    28 ≤ (simIter 30000 (throttleStart, 0)).2 ∧
    (simIter 30000 (throttleStart, 0)).2 ≤ 30 := by
  refine ⟨?_, ?_, ?_⟩
  · intro ct app t steps
    exact (masterInv_runSteps _ (masterInv_init ct app t) steps).gaps
  · rw [sim_count]
    decide
  · rw [sim_count]

/-- C6 witness: the fine-window gap between the two recorded signals of the
registration scenario. -/
theorem C6_throttle_windows_witness :
    (runSteps (initTicl CHROME_SYNC "app_name" t0) stepsReg).pings.getD (0 + 1) 0 +
        fineThrottleWindowMs ≤
      (runSteps (initTicl CHROME_SYNC "app_name" t0) stepsReg).pings.getD 0 0 :=
  (C6_throttle_windows.1 CHROME_SYNC "app_name" t0 stepsReg 0).1 (by decide)

end InvalClient
